import Mathlib

/-!
Shallow embedding of the ai-interview authentication service
(`authentication/views.py`, `authentication/serializers.py`,
`core/exceptions.py`, `config/settings.py`) and proofs about the
verification-code lifecycle, registration, login and token revocation.

Timestamps are natural numbers (seconds).  The persistent store is a pair
of lists (VerificationCode rows and User rows) threaded explicitly through
each operation.  Randomness (code generation) and the outcome of the
outbound mail call are inputs to the operations.
-/

namespace AiInterview

/-- `VERIFICATION_CODE_EXPIRY_MINUTES = 10` from `config/settings.py`. -/
def VERIFICATION_CODE_EXPIRY_MINUTES : Nat := 10

/-- Python's `str.lower()` used by the serializers' `validate_email`,
modelled character-wise (ASCII). -/
def pyLower (s : String) : String :=
  ⟨s.data.map Char.toLower⟩

/-- A row of the `VerificationCode` table: target email, 5-character code,
creation and expiry timestamps, single-use flag.  `id` is the primary key
handed out by the store at insertion. -/
structure VCode where
  id : Nat
  email : String
  code : String
  createdAt : Nat
  expiresAt : Nat
  isUsed : Bool
deriving DecidableEq, Repr

/-- A row of the `User` table (the fields the authentication flows read). -/
structure User where
  email : String
  password : String
  firstName : String
  lastName : String
  isActive : Bool
  isVerified : Bool
deriving DecidableEq, Repr

/-- The persistent store: VerificationCode rows, User rows, and the next
primary key for VerificationCode insertions. -/
structure AuthDB where
  codes : List VCode
  users : List User
  nextId : Nat
deriving DecidableEq, Repr

/-- `User.objects.filter(email=email).exists()`. -/
def userExists (db : AuthDB) (email : String) : Bool :=
  db.users.any (fun u => u.email == email)

/-- `VerificationCode.objects.filter(email=email, is_used=False).update(is_used=True)`
(`SendVerificationCodeView.post`, views.py line 204). -/
def markPriorUnused (codes : List VCode) (email : String) : List VCode :=
  codes.map (fun r =>
    if r.email == email && r.isUsed == false then { r with isUsed := true } else r)

/-- The row created by `VerificationCode.objects.create(...)` in
`SendVerificationCodeView.post`: expiry is `now + timedelta(minutes=10)`,
`is_used` defaults to false.  The generated code value is an input. -/
def newCodeRow (db : AuthDB) (email code : String) (now : Nat) : VCode :=
  ⟨db.nextId, email, code, now, now + 60 * VERIFICATION_CODE_EXPIRY_MINUTES, false⟩

inductive SendOutcome
  | sent (expiresInMinutes : Nat)
  | userExistsError
  | mailFailed
deriving DecidableEq, Repr

/-- The store after the two writes of `SendVerificationCodeView.post`: mark
all unused codes for the email used, then insert the fresh row. -/
def afterCodeCreation (db : AuthDB) (email code : String) (now : Nat) : AuthDB :=
  { codes := markPriorUnused db.codes email ++ [newCodeRow db email code now]
    users := db.users
    nextId := db.nextId + 1 }

/-- `SendVerificationCodeView.post` (views.py lines 198-233): the serializer
lowercases the email and rejects it if a User already exists; otherwise all
unused codes for the email are marked used, a fresh code row is created, and
the mail is dispatched.  `genCode` is the value produced by
`VerificationCode.generate_code()` and `mailOk` is whether `send_mail`
returns normally; a mail failure raises a `ValidationError` after the store
has already been updated. -/
def sendVerificationCode (db : AuthDB) (emailRaw genCode : String) (now : Nat)
    (mailOk : Bool) : AuthDB × SendOutcome :=
  if userExists db (pyLower emailRaw) then (db, .userExistsError)
  else if mailOk then
    (afterCodeCreation db (pyLower emailRaw) genCode now, .sent VERIFICATION_CODE_EXPIRY_MINUTES)
  else (afterCodeCreation db (pyLower emailRaw) genCode now, .mailFailed)

/-- `VerificationCode.objects.filter(email=email, code=code, is_used=False)`
(`VerifyCodeView.post`, views.py lines 291-295). -/
def matchingUnused (db : AuthDB) (email code : String) : List VCode :=
  db.codes.filter (fun r => r.email == email && r.code == code && r.isUsed == false)

/-- The later-created of two rows (the later argument wins ties). -/
def laterOf (b r : VCode) : VCode :=
  if b.createdAt ≤ r.createdAt then r else b

/-- `.latest("created_at")`: the row with the greatest creation timestamp
(`none` on an empty result set, where Django raises `DoesNotExist`).
Tie-breaking among equal timestamps is database-dependent; the theorems
below only use that the result is a match of maximal timestamp. -/
def latestByCreatedAt (rows : List VCode) : Option VCode :=
  match rows with
  | [] => none
  | r :: rs => some (rs.foldl laterOf r)

/-- Modelled from the spec: `VerificationCode.is_valid` is defined in
`authentication/models.py`, which is absent from the sources; spec section 3
defines a code as valid iff `is_used == false AND now < expires_at`. -/
def isValidCode (now : Nat) (r : VCode) : Bool :=
  r.isUsed == false && decide (now < r.expiresAt)

inductive VerifyOutcome
  | verified
  | expiredCode
  | invalidCode
deriving DecidableEq, Repr

/-- `verification.is_used = True; verification.save()` for the selected row. -/
def markUsedById (codes : List VCode) (i : Nat) : List VCode :=
  codes.map (fun r => if r.id == i then { r with isUsed := true } else r)

/-- The body of `VerifyCodeView.post` after serializer validation
(views.py lines 290-312): select the latest unused row matching
(email, code); `DoesNotExist` becomes the "Invalid verification code."
error; an expired row raises the "has expired" error without touching the
store; otherwise the row is marked used. -/
def verifyCode (db : AuthDB) (email code : String) (now : Nat) :
    AuthDB × VerifyOutcome :=
  match latestByCreatedAt (matchingUnused db email code) with
  | none => (db, .invalidCode)
  | some v =>
    if isValidCode now v then
      ({ db with codes := markUsedById db.codes v.id }, .verified)
    else (db, .expiredCode)

inductive VerifyHttp
  | fieldError
  | outcome (o : VerifyOutcome)
deriving DecidableEq, Repr

/-- The verify-code endpoint including the serializer boundary:
`VerifyCodeSerializer` requires `code` to have `min_length=5, max_length=5`
(a pure length check, no digit check) and lowercases the email; only then
does `VerifyCodeView.post` run the lookup. -/
def verifyCodeEndpoint (db : AuthDB) (emailRaw code : String) (now : Nat) :
    AuthDB × VerifyHttp :=
  if code.length == 5 then
    ((verifyCode db (pyLower emailRaw) code now).1,
     .outcome (verifyCode db (pyLower emailRaw) code now).2)
  else (db, .fieldError)

/-- `VerificationCode.objects.filter(email=email, is_used=True)` is nonempty
(`RegisterView.post`, views.py line 380, via `.first()` being truthy). -/
def hasUsedCode (db : AuthDB) (email : String) : Bool :=
  db.codes.any (fun r => r.email == email && r.isUsed == true)

/-- The password strength policy from `AUTH_PASSWORD_VALIDATORS` in
`config/settings.py`: minimum length 8 and not entirely numeric are embedded
directly; the `CommonPasswordValidator` word list is external data, passed
as the predicate `commonPwd`; `UserAttributeSimilarityValidator` is a no-op
at the serializer boundary (no user object is supplied there). -/
def passwordPolicy (commonPwd : String → Bool) (pw : String) : Bool :=
  decide (8 ≤ pw.length) && !(pw.toList.all Char.isDigit) && !(commonPwd pw)

structure RegisterInput where
  email : String
  password : String
  passwordConfirm : String
  firstName : String
  lastName : String
deriving DecidableEq, Repr

inductive RegisterOutcome
  | fieldError
  | passwordMismatch
  | emailNotVerified
  | userExistsError
  | registered
deriving DecidableEq, Repr

/-- `RegisterView.post` together with `RegisterSerializer`
(views.py lines 374-398, serializers.py lines 114-145).  DRF runs
field-level validators first — the password strength policy — and raises
their errors without ever reaching the object-level `validate`; only a
policy-passing password reaches the mismatch check.  The view then requires
a used VerificationCode row for the lowercased email, then the absence of an
existing user, and finally creates the user with `is_verified=True`. -/
def register (commonPwd : String → Bool) (db : AuthDB) (inp : RegisterInput) :
    AuthDB × RegisterOutcome :=
  if passwordPolicy commonPwd inp.password == false then (db, .fieldError)
  else if inp.password != inp.passwordConfirm then (db, .passwordMismatch)
  else if hasUsedCode db (pyLower inp.email) == false then (db, .emailNotVerified)
  else if userExists db (pyLower inp.email) then (db, .userExistsError)
  else
    ({ db with
        users := db.users ++
          [⟨pyLower inp.email, inp.password, inp.firstName, inp.lastName, true, true⟩] },
     .registered)

inductive LoginOutcome
  | missingFields
  | invalidCredentials
  | accountDisabled
  | emailNotVerified
  | loggedIn (u : User)
deriving DecidableEq, Repr

/-- Modelled from the spec: `django.contrib.auth.authenticate` belongs to the
external credential store (spec sections 1 and 4.2: look the user up by email
and verify the password; user not found and wrong password are
indistinguishable).  Password verification is modelled as equality since
hashing is the credential store's concern. -/
def authenticate (db : AuthDB) (email password : String) : Option User :=
  db.users.find? (fun u => u.email == email && u.password == password)

/-- `LoginSerializer.validate` (serializers.py lines 32-50): lowercase the
email, require both fields nonempty, authenticate, then check `is_active`,
then `is_verified`, in that order. -/
def login (db : AuthDB) (emailRaw password : String) : LoginOutcome :=
  if pyLower emailRaw == "" || password == "" then .missingFields
  else
    match authenticate db (pyLower emailRaw) password with
    | none => .invalidCredentials
    | some u =>
      if u.isActive == false then .accountDisabled
      else if u.isVerified == false then .emailNotVerified
      else .loggedIn u

/-- A demonstration store for the login error-order theorem: a verified
active user, a disabled user, an unverified user, and a user that is both
disabled and unverified, all with password `Secret123`. -/
def loginDemoDB : AuthDB :=
  ⟨[],
   [⟨"u@example.com", "Secret123", "", "", true, true⟩,
    ⟨"d@example.com", "Secret123", "", "", false, true⟩,
    ⟨"v@example.com", "Secret123", "", "", true, false⟩,
    ⟨"b@example.com", "Secret123", "", "", false, false⟩],
   0⟩

/-- `EXCEPTION_CODE_MAP` from `core/exceptions.py`. -/
def EXCEPTION_CODE_MAP : List (String × String) :=
  [("ValidationError", "validation_error"),
   ("NotAuthenticated", "not_authenticated"),
   ("AuthenticationFailed", "invalid_credentials"),
   ("PermissionDenied", "permission_denied"),
   ("NotFound", "not_found"),
   ("MethodNotAllowed", "method_not_allowed")]

/-- `custom_exception_handler`'s code selection: the map entry for the
exception class name, defaulting to the class name itself. -/
def exceptionCode (className : String) : String :=
  match EXCEPTION_CODE_MAP.find? (fun p => p.1 == className) with
  | some p => p.2
  | none => className

/-- The unified `{code, message}` error envelope plus HTTP status produced by
`custom_exception_handler` for a handled DRF exception. -/
structure ErrorBody where
  code : String
  message : String
  status : Nat
deriving DecidableEq, Repr

/-- Envelope for a handled DRF exception of class `className` carrying a
`detail` message, at the exception's status code. -/
def errorEnvelope (className message : String) (status : Nat) : ErrorBody :=
  ⟨exceptionCode className, message, status⟩

/-- Error envelope per send-code outcome: both failure paths raise DRF
`ValidationError` (status 400) — the serializer's duplicate-email message and
the view's mail-failure message (views.py line 225). -/
def sendCodeError (o : SendOutcome) : Option ErrorBody :=
  match o with
  | .sent _ => none
  | .userExistsError => some (errorEnvelope "ValidationError" "User with this email already exists." 400)
  | .mailFailed => some (errorEnvelope "ValidationError" "Failed to send email. Please try again." 400)

/-- Error envelope per verify-code outcome (views.py lines 298 and 312). -/
def verifyCodeError (o : VerifyOutcome) : Option ErrorBody :=
  match o with
  | .verified => none
  | .expiredCode => some (errorEnvelope "ValidationError" "Verification code has expired. Please request a new one." 400)
  | .invalidCode => some (errorEnvelope "ValidationError" "Invalid verification code." 400)

/-- Error envelope per login outcome: every failure in
`LoginSerializer.validate` raises DRF `ValidationError` (status 400). -/
def loginError (o : LoginOutcome) : Option ErrorBody :=
  match o with
  | .missingFields => some (errorEnvelope "ValidationError" "Email and password are required." 400)
  | .invalidCredentials => some (errorEnvelope "ValidationError" "Invalid email or password." 400)
  | .accountDisabled => some (errorEnvelope "ValidationError" "User account is disabled." 400)
  | .emailNotVerified => some (errorEnvelope "ValidationError" "Email is not verified." 400)
  | .loggedIn _ => none

/-! ### Token issuer / revoker

Modelled from the spec: rotation and blacklisting are implemented by the
`rest_framework_simplejwt` package (not part of the sources); the repository
contributes the configuration `ROTATE_REFRESH_TOKENS = True`,
`BLACKLIST_AFTER_ROTATION = True` and the installed `token_blacklist` app
(`config/settings.py`), and `LogoutView.post`.  Spec section 4.3: a refresh
token is accepted iff it is well-formed (signature, type, expiry) and not
blacklisted; a refresh exchange blacklists the presented token and issues a
fresh pair; revoke fails with `InvalidToken` on a malformed or
already-blacklisted token and otherwise blacklists it. -/

/-- A refresh token: `jti` identifies it in the blacklist store;
`wellFormed` abstracts the signature/type/expiry checks. -/
structure RToken where
  jti : Nat
  userId : Nat
  wellFormed : Bool
deriving DecidableEq, Repr

/-- The revocation store: blacklisted token identifiers and the next fresh
identifier. -/
structure TokenState where
  blacklist : List Nat
  nextJti : Nat
deriving DecidableEq, Repr

/-- `RefreshToken(raw)` verification: well-formed and not blacklisted. -/
def tokenAccepted (st : TokenState) (t : RToken) : Bool :=
  t.wellFormed && !(st.blacklist.contains t.jti)

inductive RefreshOutcome
  | newPair (t : RToken)
  | invalidToken
deriving DecidableEq, Repr

/-- `TokenRefreshView` under `ROTATE_REFRESH_TOKENS` and
`BLACKLIST_AFTER_ROTATION`: an accepted token is blacklisted and a fresh
pair is issued for the same user; otherwise `InvalidToken`. -/
def refreshPair (st : TokenState) (t : RToken) : TokenState × RefreshOutcome :=
  if tokenAccepted st t then
    ({ blacklist := t.jti :: st.blacklist, nextJti := st.nextJti + 1 },
     .newPair ⟨st.nextJti, t.userId, true⟩)
  else (st, .invalidToken)

inductive LogoutOutcome
  | loggedOut
  | invalidToken
deriving DecidableEq, Repr

/-- `LogoutView.post` (views.py lines 496-509): constructing
`RefreshToken(raw)` fails on a malformed or already-blacklisted token and
the view answers "Invalid token or token already blacklisted."; otherwise
`token.blacklist()` stores it. -/
def logout (st : TokenState) (t : RToken) : TokenState × LogoutOutcome :=
  if tokenAccepted st t then
    ({ st with blacklist := t.jti :: st.blacklist }, .loggedOut)
  else (st, .invalidToken)

/-- Any operation touching the revocation store. -/
inductive TokenOp
  | refresh (t : RToken)
  | revoke (t : RToken)

def stepToken (st : TokenState) (op : TokenOp) : TokenState :=
  match op with
  | .refresh t => (refreshPair st t).1
  | .revoke t => (logout st t).1

def runToken (st : TokenState) (ops : List TokenOp) : TokenState :=
  ops.foldl stepToken st

/-! ### Store invariants -/

/-- Two rows for the same email are not both unused. -/
def unusedRel (a b : VCode) : Prop :=
  a.email = b.email → a.isUsed = true ∨ b.isUsed = true

instance : DecidableRel unusedRel := fun a b => by
  unfold unusedRel; infer_instance

/-- At most one unused code per email (spec section 3). -/
@[reducible] def AtMostOneUnused (db : AuthDB) : Prop :=
  db.codes.Pairwise unusedRel

/-- Primary keys are pairwise distinct and below the fresh-id counter. -/
@[reducible] def UniqueIds (db : AuthDB) : Prop :=
  db.codes.Pairwise (fun a b => a.id ≠ b.id) ∧ ∀ r ∈ db.codes, r.id < db.nextId

/-- Well-formedness of the VerificationCode store. -/
@[reducible] def Inv (db : AuthDB) : Prop :=
  UniqueIds db ∧ AtMostOneUnused db

theorem unusedRel_symm : Symmetric unusedRel := by
  intro a b hab h
  exact (hab h.symm).symm

theorem idNe_symm : Symmetric (fun a b : VCode => a.id ≠ b.id) := by
  intro a b hab h
  exact hab h.symm

theorem uniqueIds_eq {db : AuthDB} (h : UniqueIds db) {r s : VCode}
    (hr : r ∈ db.codes) (hs : s ∈ db.codes) (hid : s.id = r.id) : s = r := by
  by_contra hne
  exact h.1.forall idNe_symm hs hr hne hid

/-! ### Lemmas about the marking updates -/

theorem mark_id (p : Prop) [Decidable p] (r : VCode) :
    (if p then { r with isUsed := true } else r).id = r.id := by
  split <;> rfl

theorem mark_email (p : Prop) [Decidable p] (r : VCode) :
    (if p then { r with isUsed := true } else r).email = r.email := by
  split <;> rfl

theorem mark_code (p : Prop) [Decidable p] (r : VCode) :
    (if p then { r with isUsed := true } else r).code = r.code := by
  split <;> rfl

theorem mark_createdAt (p : Prop) [Decidable p] (r : VCode) :
    (if p then { r with isUsed := true } else r).createdAt = r.createdAt := by
  split <;> rfl

theorem mark_used_mono (p : Prop) [Decidable p] (r : VCode) (h : r.isUsed = true) :
    (if p then { r with isUsed := true } else r).isUsed = true := by
  split
  · rfl
  · exact h

theorem markPriorUnused_spec {codes : List VCode} {e : String} :
    ∀ r ∈ markPriorUnused codes e, ∃ r0 ∈ codes,
      r = (if r0.email == e && r0.isUsed == false then { r0 with isUsed := true } else r0) := by
  intro r hr
  simp only [markPriorUnused, List.mem_map] at hr
  obtain ⟨r0, hr0, rfl⟩ := hr
  exact ⟨r0, hr0, rfl⟩

theorem markUsedById_spec {codes : List VCode} {i : Nat} :
    ∀ r ∈ markUsedById codes i, ∃ r0 ∈ codes,
      r = (if r0.id == i then { r0 with isUsed := true } else r0) := by
  intro r hr
  simp only [markUsedById, List.mem_map] at hr
  obtain ⟨r0, hr0, rfl⟩ := hr
  exact ⟨r0, hr0, rfl⟩

/-- After the bulk update, every row for the email is used. -/
theorem markPriorUnused_all_used {codes : List VCode} {e : String} :
    ∀ r ∈ markPriorUnused codes e, r.email = e → r.isUsed = true := by
  intro r hr he
  obtain ⟨r0, _, rfl⟩ := markPriorUnused_spec r hr
  by_cases hp : (r0.email == e && r0.isUsed == false) = true
  · rw [if_pos hp]
  · rw [if_neg hp] at he ⊢
    simp only [Bool.and_eq_true, beq_iff_eq] at hp
    cases hu : r0.isUsed
    · exact absurd ⟨he, hu⟩ hp
    · rfl

/-- Every row whose id is the marked one is used afterwards. -/
theorem markUsedById_all_used {codes : List VCode} {i : Nat} :
    ∀ r ∈ markUsedById codes i, r.id = i → r.isUsed = true := by
  intro r hr hid
  obtain ⟨r0, _, rfl⟩ := markUsedById_spec r hr
  by_cases hp : (r0.id == i) = true
  · rw [if_pos hp]
  · rw [if_neg hp] at hid ⊢
    exact absurd (beq_iff_eq.mpr hid) (by simpa using hp)

/-! ### Lemmas about `latestByCreatedAt` -/

theorem laterOf_eq_or (b r : VCode) : laterOf b r = b ∨ laterOf b r = r := by
  unfold laterOf
  split
  · exact Or.inr rfl
  · exact Or.inl rfl

theorem le_laterOf_left (b r : VCode) : b.createdAt ≤ (laterOf b r).createdAt := by
  unfold laterOf
  split
  · assumption
  · exact le_refl _

theorem le_laterOf_right (b r : VCode) : r.createdAt ≤ (laterOf b r).createdAt := by
  unfold laterOf
  split
  · exact le_refl _
  · exact le_of_not_le (by assumption)

theorem foldl_laterOf_spec (rs : List VCode) : ∀ b : VCode,
    (rs.foldl laterOf b = b ∨ rs.foldl laterOf b ∈ rs)
    ∧ b.createdAt ≤ (rs.foldl laterOf b).createdAt
    ∧ ∀ m ∈ rs, m.createdAt ≤ (rs.foldl laterOf b).createdAt := by
  induction rs with
  | nil =>
    intro b
    exact ⟨Or.inl rfl, le_refl _, by simp⟩
  | cons x xs ih =>
    intro b
    obtain ⟨hmem, hb, hall⟩ := ih (laterOf b x)
    rw [List.foldl_cons]
    refine ⟨?_, ?_, ?_⟩
    · rcases hmem with h | h
      · rw [h]
        rcases laterOf_eq_or b x with h2 | h2
        · exact Or.inl h2
        · exact Or.inr (by rw [h2]; exact List.mem_cons_self x xs)
      · exact Or.inr (List.mem_cons_of_mem x h)
    · exact le_trans (le_laterOf_left b x) hb
    · intro m hm
      rcases List.mem_cons.mp hm with h | h
      · rw [h]
        exact le_trans (le_laterOf_right b x) hb
      · exact hall m h

theorem latestByCreatedAt_eq_none_iff {l : List VCode} :
    latestByCreatedAt l = none ↔ l = [] := by
  cases l <;> simp [latestByCreatedAt]

theorem latestByCreatedAt_mem {l : List VCode} {v : VCode}
    (h : latestByCreatedAt l = some v) : v ∈ l := by
  cases l with
  | nil => simp [latestByCreatedAt] at h
  | cons r rs =>
    simp only [latestByCreatedAt, Option.some.injEq] at h
    rcases (foldl_laterOf_spec rs r).1 with h2 | h2
    · rw [← h, h2]
      exact List.mem_cons_self r rs
    · rw [← h]
      exact List.mem_cons_of_mem r h2

theorem latestByCreatedAt_max {l : List VCode} {v : VCode}
    (h : latestByCreatedAt l = some v) : ∀ m ∈ l, m.createdAt ≤ v.createdAt := by
  cases l with
  | nil => simp [latestByCreatedAt] at h
  | cons r rs =>
    simp only [latestByCreatedAt, Option.some.injEq] at h
    obtain ⟨_, hb, hall⟩ := foldl_laterOf_spec rs r
    intro m hm
    rcases List.mem_cons.mp hm with h2 | h2
    · rw [h2, ← h]
      exact hb
    · rw [← h]
      exact hall m h2

/-! ### Invariant preservation -/

theorem inv_afterCodeCreation {db : AuthDB} {e g : String} {now : Nat} (h : Inv db) :
    Inv (afterCodeCreation db e g now) := by
  obtain ⟨⟨hids, hlt⟩, hone⟩ := h
  unfold Inv UniqueIds AtMostOneUnused afterCodeCreation
  refine ⟨⟨?_, ?_⟩, ?_⟩
  · rw [List.pairwise_append]
    refine ⟨?_, List.pairwise_singleton _ _, ?_⟩
    · rw [markPriorUnused, List.pairwise_map]
      refine hids.imp ?_
      intro a b hab
      simpa [mark_id] using hab
    · intro a ha b hb
      rw [List.mem_singleton] at hb
      obtain ⟨a0, ha0, rfl⟩ := markPriorUnused_spec a ha
      subst hb
      show _ ≠ (newCodeRow db e g now).id
      rw [mark_id]
      exact Nat.ne_of_lt (hlt a0 ha0)
  · intro r hr
    rcases List.mem_append.mp hr with h2 | h2
    · obtain ⟨r0, hr0, rfl⟩ := markPriorUnused_spec r h2
      rw [mark_id]
      exact Nat.lt_succ_of_lt (hlt r0 hr0)
    · rw [List.mem_singleton] at h2
      subst h2
      exact Nat.lt_succ_self _
  · rw [List.pairwise_append]
    refine ⟨?_, List.pairwise_singleton _ _, ?_⟩
    · rw [markPriorUnused, List.pairwise_map]
      refine hone.imp ?_
      intro a b hab hemail
      rw [mark_email, mark_email] at hemail
      rcases hab hemail with hu | hu
      · exact Or.inl (mark_used_mono _ _ hu)
      · exact Or.inr (mark_used_mono _ _ hu)
    · intro a ha b hb
      rw [List.mem_singleton] at hb
      subst hb
      intro hemail
      exact Or.inl (markPriorUnused_all_used a ha hemail)

theorem sendVerificationCode_db (db : AuthDB) (e g : String) (now : Nat) (mailOk : Bool)
    (h : userExists db (pyLower e) = false) :
    (sendVerificationCode db e g now mailOk).1 = afterCodeCreation db (pyLower e) g now := by
  unfold sendVerificationCode
  rw [if_neg (by simp [h])]
  cases mailOk <;> rfl

theorem sendVerificationCode_users (db : AuthDB) (e g : String) (now : Nat) (mailOk : Bool) :
    (sendVerificationCode db e g now mailOk).1.users = db.users := by
  unfold sendVerificationCode
  split_ifs <;> rfl

theorem inv_sendVerificationCode (db : AuthDB) (e g : String) (now : Nat) (mailOk : Bool)
    (h : Inv db) : Inv (sendVerificationCode db e g now mailOk).1 := by
  cases hb : userExists db (pyLower e) with
  | false =>
    rw [sendVerificationCode_db db e g now mailOk hb]
    exact inv_afterCodeCreation h
  | true =>
    unfold sendVerificationCode
    rw [if_pos hb]
    exact h

theorem inv_markUsedById {db : AuthDB} {i : Nat} (h : Inv db) :
    Inv { db with codes := markUsedById db.codes i } := by
  obtain ⟨⟨hids, hlt⟩, hone⟩ := h
  unfold Inv UniqueIds AtMostOneUnused
  refine ⟨⟨?_, ?_⟩, ?_⟩
  · show (markUsedById db.codes i).Pairwise _
    rw [markUsedById, List.pairwise_map]
    refine hids.imp ?_
    intro a b hab
    simpa [mark_id] using hab
  · intro r hr
    obtain ⟨r0, hr0, rfl⟩ := markUsedById_spec r hr
    rw [mark_id]
    exact hlt r0 hr0
  · show (markUsedById db.codes i).Pairwise unusedRel
    rw [markUsedById, List.pairwise_map]
    refine hone.imp ?_
    intro a b hab hemail
    rw [mark_email, mark_email] at hemail
    rcases hab hemail with hu | hu
    · exact Or.inl (mark_used_mono _ _ hu)
    · exact Or.inr (mark_used_mono _ _ hu)

/-- Complete case analysis of `verifyCode`. -/
theorem verifyCode_cases (db : AuthDB) (e c : String) (now : Nat) :
    (matchingUnused db e c = [] ∧ verifyCode db e c now = (db, .invalidCode))
    ∨ (∃ v, latestByCreatedAt (matchingUnused db e c) = some v ∧
        isValidCode now v = true ∧
        verifyCode db e c now = ({ db with codes := markUsedById db.codes v.id }, .verified))
    ∨ (∃ v, latestByCreatedAt (matchingUnused db e c) = some v ∧
        isValidCode now v = false ∧
        verifyCode db e c now = (db, .expiredCode)) := by
  unfold verifyCode
  split
  · rename_i hl
    exact Or.inl ⟨latestByCreatedAt_eq_none_iff.mp hl, rfl⟩
  · rename_i v hl
    by_cases hv : isValidCode now v = true
    · rw [if_pos hv]
      exact Or.inr (Or.inl ⟨v, hl, hv, rfl⟩)
    · rw [if_neg hv]
      exact Or.inr (Or.inr ⟨v, hl, Bool.eq_false_iff.mpr hv, rfl⟩)

theorem inv_verifyCode (db : AuthDB) (e c : String) (now : Nat) (h : Inv db) :
    Inv (verifyCode db e c now).1 := by
  rcases verifyCode_cases db e c now with ⟨_, hq⟩ | ⟨v, _, _, hq⟩ | ⟨v, _, _, hq⟩
  · rw [hq]; exact h
  · rw [hq]; exact inv_markUsedById h
  · rw [hq]; exact h

theorem verifyCode_of_no_match (db : AuthDB) (e c : String) (now : Nat)
    (h : matchingUnused db e c = []) :
    verifyCode db e c now = (db, .invalidCode) := by
  unfold verifyCode
  rw [h]
  rfl

/-- The NotFound error occurs exactly when no unused row matches. -/
theorem verifyCode_invalid_iff (db : AuthDB) (e c : String) (now : Nat) :
    (verifyCode db e c now).2 = .invalidCode ↔ matchingUnused db e c = [] := by
  constructor
  · intro h
    rcases verifyCode_cases db e c now with ⟨hm, _⟩ | ⟨v, _, _, hq⟩ | ⟨v, _, _, hq⟩
    · exact hm
    · rw [hq] at h
      exact absurd h (by simp)
    · rw [hq] at h
      exact absurd h (by simp)
  · intro h
    rw [verifyCode_of_no_match db e c now h]

/-- After a successful verification, the consumed (email, code) pair no
longer matches any unused row, so an immediate retry fails with NotFound. -/
theorem verified_then_invalid (db : AuthDB) (e c : String) (now now2 : Nat)
    (hinv : Inv db) (h : (verifyCode db e c now).2 = .verified) :
    verifyCode (verifyCode db e c now).1 e c now2 = ((verifyCode db e c now).1, .invalidCode) := by
  rcases verifyCode_cases db e c now with ⟨_, hq⟩ | ⟨v, hl, _, hq⟩ | ⟨v, _, _, hq⟩
  · rw [hq] at h
    exact absurd h (by simp)
  · have hvmem := latestByCreatedAt_mem hl
    have hv2 := List.mem_filter.mp hvmem
    simp only [Bool.and_eq_true, beq_iff_eq] at hv2
    obtain ⟨hvcodes, ⟨hvemail, hvcode⟩, hvused⟩ := hv2
    apply verifyCode_of_no_match
    rw [hq]
    unfold matchingUnused
    rw [List.filter_eq_nil_iff]
    intro r hr hp
    obtain ⟨r0, hr0, rfl⟩ := markUsedById_spec r hr
    by_cases hid : (r0.id == v.id) = true
    · rw [if_pos hid] at hp
      simp at hp
    · rw [if_neg hid] at hp
      simp only [Bool.and_eq_true, beq_iff_eq] at hp
      obtain ⟨⟨hremail, _⟩, hrused⟩ := hp
      have hne : r0 ≠ v := by
        intro hEq
        rw [hEq] at hid
        exact hid (beq_self_eq_true v.id)
      rcases List.Pairwise.forall unusedRel_symm hinv.2 hr0 hvcodes hne
          (hremail.trans hvemail.symm) with hu | hu
      · rw [hrused] at hu
        simp at hu
      · rw [hvused] at hu
        simp at hu
  · rw [hq] at h
    exact absurd h (by simp)

/-- A used row can never flip back to unused under `verifyCode`. -/
theorem verifyCode_preserves_used (db : AuthDB) (e c : String) (now : Nat)
    (hinv : Inv db) :
    ∀ r ∈ db.codes, r.isUsed = true →
      ∀ s ∈ (verifyCode db e c now).1.codes, s.id = r.id → s.isUsed = true := by
  intro r hr hu s hs hid
  rcases verifyCode_cases db e c now with ⟨_, hq⟩ | ⟨v, _, _, hq⟩ | ⟨v, _, _, hq⟩
  · rw [hq] at hs
    rw [uniqueIds_eq hinv.1 hr hs hid]
    exact hu
  · rw [hq] at hs
    obtain ⟨s0, hs0, rfl⟩ := markUsedById_spec s hs
    by_cases hid0 : (s0.id == v.id) = true
    · rw [if_pos hid0]
    · rw [if_neg hid0] at hid ⊢
      rw [uniqueIds_eq hinv.1 hr hs0 hid]
      exact hu
  · rw [hq] at hs
    rw [uniqueIds_eq hinv.1 hr hs hid]
    exact hu

/-- A used row can never flip back to unused under `sendVerificationCode`. -/
theorem sendVerificationCode_preserves_used (db : AuthDB) (e g : String) (now : Nat)
    (mailOk : Bool) (hinv : Inv db) :
    ∀ r ∈ db.codes, r.isUsed = true →
      ∀ s ∈ (sendVerificationCode db e g now mailOk).1.codes, s.id = r.id → s.isUsed = true := by
  intro r hr hu s hs hid
  cases hb : userExists db (pyLower e) with
  | true =>
    unfold sendVerificationCode at hs
    rw [if_pos hb] at hs
    rw [uniqueIds_eq hinv.1 hr hs hid]
    exact hu
  | false =>
    rw [sendVerificationCode_db db e g now mailOk hb] at hs
    rcases List.mem_append.mp hs with h2 | h2
    · obtain ⟨s0, hs0, rfl⟩ := markPriorUnused_spec s h2
      by_cases hp : (s0.email == pyLower e && s0.isUsed == false) = true
      · rw [if_pos hp]
      · rw [if_neg hp] at hid ⊢
        rw [uniqueIds_eq hinv.1 hr hs0 hid]
        exact hu
    · rw [List.mem_singleton] at h2
      subst h2
      exact absurd hid (Ne.symm (Nat.ne_of_lt (hinv.1.2 r hr)))

/-- After the bulk invalidation, no row for that email matches any code as
unused. -/
theorem filter_match_markPriorUnused (codes : List VCode) (e c : String) :
    (markPriorUnused codes e).filter
      (fun r => r.email == e && r.code == c && r.isUsed == false) = [] := by
  rw [List.filter_eq_nil_iff]
  intro r hr hp
  simp only [Bool.and_eq_true, beq_iff_eq] at hp
  obtain ⟨⟨hremail, _⟩, hrused⟩ := hp
  rw [markPriorUnused_all_used r hr hremail] at hrused
  simp at hrused

theorem register_state (cp : String → Bool) (db : AuthDB) (inp : RegisterInput) :
    (register cp db inp).1.codes = db.codes ∧ (register cp db inp).1.nextId = db.nextId := by
  unfold register
  split_ifs <;> exact ⟨rfl, rfl⟩

theorem inv_register (cp : String → Bool) (db : AuthDB) (inp : RegisterInput) (h : Inv db) :
    Inv (register cp db inp).1 := by
  obtain ⟨hc, hn⟩ := register_state cp db inp
  obtain ⟨⟨hids, hlt⟩, hone⟩ := h
  unfold Inv UniqueIds AtMostOneUnused
  refine ⟨⟨?_, ?_⟩, ?_⟩
  · rw [hc]; exact hids
  · intro r hr
    rw [hc] at hr
    rw [hn]
    exact hlt r hr
  · rw [hc]; exact hone

/-! ### Token blacklist lemmas -/

theorem blacklist_mono_step (st : TokenState) (op : TokenOp) (j : Nat)
    (h : j ∈ st.blacklist) : j ∈ (stepToken st op).blacklist := by
  cases op with
  | refresh t =>
    show j ∈ (refreshPair st t).1.blacklist
    unfold refreshPair
    split_ifs
    · exact List.mem_cons_of_mem _ h
    · exact h
  | revoke t =>
    show j ∈ (logout st t).1.blacklist
    unfold logout
    split_ifs
    · exact List.mem_cons_of_mem _ h
    · exact h

theorem blacklist_mono_run (ops : List TokenOp) : ∀ (st : TokenState) (j : Nat),
    j ∈ st.blacklist → j ∈ (runToken st ops).blacklist := by
  induction ops with
  | nil =>
    intro st j h
    exact h
  | cons op ops ih =>
    intro st j h
    rw [runToken, List.foldl_cons]
    exact ih _ j (blacklist_mono_step st op j h)

theorem refreshPair_invalid_of_blacklisted (st : TokenState) (t : RToken)
    (h : t.jti ∈ st.blacklist) :
    refreshPair st t = (st, .invalidToken) := by
  unfold refreshPair
  rw [if_neg (by simp [tokenAccepted, h])]

theorem logout_loggedOut_spec (st : TokenState) (t : RToken)
    (h : (logout st t).2 = .loggedOut) :
    tokenAccepted st t = true ∧
      (logout st t).1 = { st with blacklist := t.jti :: st.blacklist } := by
  unfold logout at h ⊢
  by_cases ha : tokenAccepted st t = true
  · exact ⟨ha, by rw [if_pos ha]⟩
  · rw [if_neg ha] at h
    exact absurd h (by simp)

theorem refreshPair_newPair_spec (st : TokenState) (t u : RToken)
    (h : (refreshPair st t).2 = .newPair u) :
    tokenAccepted st t = true ∧
      (refreshPair st t).1 = { blacklist := t.jti :: st.blacklist, nextJti := st.nextJti + 1 } := by
  unfold refreshPair at h ⊢
  by_cases ha : tokenAccepted st t = true
  · exact ⟨ha, by rw [if_pos ha]⟩
  · rw [if_neg ha] at h
    exact absurd h (by simp)

theorem afterCodeCreation_codes (db : AuthDB) (e g : String) (now : Nat) :
    (afterCodeCreation db e g now).codes
      = markPriorUnused db.codes e ++ [newCodeRow db e g now] := rfl

/-- After two consecutive send-code calls for the same email, the only
unused row for that email is the second fresh one. -/
theorem matchingUnused_after_two_sends (db : AuthDB) (e c1 c2 : String) (t1 t2 : Nat)
    (m1 m2 : Bool) (h : userExists db (pyLower e) = false) :
    matchingUnused (sendVerificationCode (sendVerificationCode db e c1 t1 m1).1 e c2 t2 m2).1
        (pyLower e) c2
      = [newCodeRow (sendVerificationCode db e c1 t1 m1).1 (pyLower e) c2 t2]
    ∧ ∀ c, c ≠ c2 →
      matchingUnused (sendVerificationCode (sendVerificationCode db e c1 t1 m1).1 e c2 t2 m2).1
        (pyLower e) c = [] := by
  have h2 : userExists (sendVerificationCode db e c1 t1 m1).1 (pyLower e) = false := by
    unfold userExists
    rw [sendVerificationCode_users]
    exact h
  have hdb2 := sendVerificationCode_db (sendVerificationCode db e c1 t1 m1).1 e c2 t2 m2 h2
  constructor
  · unfold matchingUnused
    rw [hdb2, afterCodeCreation_codes, List.filter_append, filter_match_markPriorUnused]
    simp [newCodeRow]
  · intro c hc
    unfold matchingUnused
    rw [hdb2, afterCodeCreation_codes, List.filter_append, filter_match_markPriorUnused]
    simp [newCodeRow, Ne.symm hc]

/-- When exactly one valid row matches, verification succeeds. -/
theorem verify_single_match (db : AuthDB) (e c : String) (now : Nat) (v : VCode)
    (hm : matchingUnused db e c = [v]) (hval : isValidCode now v = true) :
    (verifyCode db e c now).2 = .verified := by
  have hl : latestByCreatedAt (matchingUnused db e c) = some v := by
    rw [hm]
    rfl
  rcases verifyCode_cases db e c now with ⟨hm2, _⟩ | ⟨w, hl2, _, hq⟩ | ⟨w, hl2, hval2, hq⟩
  · rw [hm2] at hm
    exact absurd hm (by simp)
  · rw [hq]
  · rw [hl] at hl2
    injection hl2 with hw
    rw [← hw] at hval2
    rw [hval] at hval2
    exact absurd hval2 (by simp)

/-! ### Claim theorems -/

/-- Claim C1: the send-code operation first marks every unused
VerificationCode row for the email as used and only then inserts the new
row; the at-most-one-unused-per-email invariant is preserved by every store
operation; and after two consecutive send-code calls for the same email the
first code fails to verify while the second one (before its expiry)
verifies. -/
theorem sendCode_invalidates_prior_unused :
    (∀ (db : AuthDB) (e g : String) (now : Nat) (mailOk : Bool),
      userExists db (pyLower e) = false →
        (sendVerificationCode db e g now mailOk).1.codes
            = markPriorUnused db.codes (pyLower e) ++ [newCodeRow db (pyLower e) g now]
          ∧ ∀ r ∈ markPriorUnused db.codes (pyLower e), r.email = pyLower e → r.isUsed = true)
    ∧ (∀ (db : AuthDB) (e g : String) (now : Nat) (mailOk : Bool),
        Inv db → Inv (sendVerificationCode db e g now mailOk).1)
    ∧ (∀ (db : AuthDB) (e c : String) (now : Nat), Inv db → Inv (verifyCode db e c now).1)
    ∧ (∀ (cp : String → Bool) (db : AuthDB) (inp : RegisterInput),
        Inv db → Inv (register cp db inp).1)
    ∧ (∀ (db : AuthDB) (e c1 c2 : String) (t1 t2 t3 : Nat) (m1 m2 : Bool),
        userExists db (pyLower e) = false → c1 ≠ c2 →
          (verifyCode (sendVerificationCode (sendVerificationCode db e c1 t1 m1).1 e c2 t2 m2).1
              (pyLower e) c1 t3).2 = .invalidCode
          ∧ (t3 < t2 + 60 * VERIFICATION_CODE_EXPIRY_MINUTES →
              (verifyCode (sendVerificationCode (sendVerificationCode db e c1 t1 m1).1 e c2 t2 m2).1
                  (pyLower e) c2 t3).2 = .verified)) := by
  refine ⟨?_, ?_, ?_, ?_, ?_⟩
  · intro db e g now mailOk h
    constructor
    · rw [sendVerificationCode_db db e g now mailOk h]
      rfl
    · exact fun r hr he => markPriorUnused_all_used r hr he
  · intro db e g now mailOk h
    exact inv_sendVerificationCode db e g now mailOk h
  · intro db e c now h
    exact inv_verifyCode db e c now h
  · intro cp db inp h
    exact inv_register cp db inp h
  · intro db e c1 c2 t1 t2 t3 m1 m2 h hne
    obtain ⟨hm2, hmo⟩ := matchingUnused_after_two_sends db e c1 c2 t1 t2 m1 m2 h
    constructor
    · rw [verifyCode_invalid_iff]
      exact hmo c1 hne
    · intro ht
      apply verify_single_match _ _ _ _ _ hm2
      unfold isValidCode newCodeRow
      simp [ht]

/-- Witness for C1 at a concrete store: two sends for `a@b.com`, then the
first code no longer verifies, and the store invariant holds after a send. -/
theorem sendCode_invalidates_prior_unused_witness :
    ((verifyCode (sendVerificationCode (sendVerificationCode ⟨[], [], 0⟩ "a@b.com" "11111" 0
        true).1 "a@b.com" "22222" 1 true).1 (pyLower "a@b.com") "11111" 2).2
      = VerifyOutcome.invalidCode)
    ∧ Inv (sendVerificationCode ⟨[], [], 0⟩ "a@b.com" "11111" 0 true).1 := by
  constructor
  · exact (sendCode_invalidates_prior_unused.2.2.2.2 ⟨[], [], 0⟩ "a@b.com" "11111" "22222"
      0 1 2 true true (by decide) (by decide)).1
  · exact sendCode_invalidates_prior_unused.2.1 ⟨[], [], 0⟩ "a@b.com" "11111" 0 true (by decide)

/-- Claim C2: VerifyCode fails with NotFound (the single "Invalid
verification code." error) exactly when no row matches
(email, code, is_used=false) — covering both wrong and already-used codes;
when matches exist it picks the most recently created one; on success it
marks the selected row used, so under the store invariant an immediate
retry of the same (email, code) pair fails with NotFound, and a used row is
never flipped back to unused by any store operation. -/
theorem verifyCode_notFound_and_single_use :
    (∀ (db : AuthDB) (e c : String) (now : Nat),
      ((verifyCode db e c now).2 = .invalidCode ↔ matchingUnused db e c = [])
      ∧ (matchingUnused db e c = [] → verifyCode db e c now = (db, .invalidCode)))
    ∧ (∀ (db : AuthDB) (e c : String) (v : VCode),
        latestByCreatedAt (matchingUnused db e c) = some v →
          v ∈ matchingUnused db e c ∧ ∀ m ∈ matchingUnused db e c, m.createdAt ≤ v.createdAt)
    ∧ (∀ (db : AuthDB) (e c : String) (now : Nat),
        (verifyCode db e c now).2 = .verified →
          ∃ v, latestByCreatedAt (matchingUnused db e c) = some v ∧
            (verifyCode db e c now).1.codes = markUsedById db.codes v.id ∧
            ∀ s ∈ (verifyCode db e c now).1.codes, s.id = v.id → s.isUsed = true)
    ∧ (∀ (db : AuthDB) (e c : String) (now now2 : Nat), Inv db →
        (verifyCode db e c now).2 = .verified →
          verifyCode (verifyCode db e c now).1 e c now2
            = ((verifyCode db e c now).1, .invalidCode))
    ∧ (∀ (db : AuthDB) (e c : String) (now : Nat), Inv db →
        ∀ r ∈ db.codes, r.isUsed = true →
          ∀ s ∈ (verifyCode db e c now).1.codes, s.id = r.id → s.isUsed = true)
    ∧ (∀ (db : AuthDB) (e g : String) (now : Nat) (mailOk : Bool), Inv db →
        ∀ r ∈ db.codes, r.isUsed = true →
          ∀ s ∈ (sendVerificationCode db e g now mailOk).1.codes, s.id = r.id →
            s.isUsed = true) := by
  refine ⟨?_, ?_, ?_, ?_, ?_, ?_⟩
  · intro db e c now
    exact ⟨verifyCode_invalid_iff db e c now, verifyCode_of_no_match db e c now⟩
  · intro db e c v hl
    exact ⟨latestByCreatedAt_mem hl, latestByCreatedAt_max hl⟩
  · intro db e c now h
    rcases verifyCode_cases db e c now with ⟨_, hq⟩ | ⟨v, hl, _, hq⟩ | ⟨v, _, _, hq⟩
    · rw [hq] at h
      exact absurd h (by simp)
    · refine ⟨v, hl, by rw [hq], ?_⟩
      intro s hs hsid
      rw [hq] at hs
      exact markUsedById_all_used s hs hsid
    · rw [hq] at h
      exact absurd h (by simp)
  · intro db e c now now2 hinv h
    exact verified_then_invalid db e c now now2 hinv h
  · intro db e c now hinv
    exact verifyCode_preserves_used db e c now hinv
  · intro db e g now mailOk hinv
    exact sendVerificationCode_preserves_used db e g now mailOk hinv

/-- Witness for C2 at concrete stores: the consumed pair immediately fails
on retry; the NotFound equivalence; the latest-row selection; the success
shape; and used rows stay used under both operations. -/
theorem verifyCode_notFound_and_single_use_witness :
    (verifyCode (verifyCode ⟨[⟨0, "a@b.com", "12345", 5, 605, false⟩], [], 1⟩
        "a@b.com" "12345" 10).1 "a@b.com" "12345" 11
      = ((verifyCode ⟨[⟨0, "a@b.com", "12345", 5, 605, false⟩], [], 1⟩
          "a@b.com" "12345" 10).1, .invalidCode))
    ∧ verifyCode ⟨[⟨0, "a@b.com", "12345", 5, 605, false⟩], [], 1⟩ "a@b.com" "99999" 10
        = (⟨[⟨0, "a@b.com", "12345", 5, 605, false⟩], [], 1⟩, .invalidCode)
    ∧ ((⟨0, "a@b.com", "12345", 5, 605, false⟩ : VCode)
        ∈ matchingUnused ⟨[⟨0, "a@b.com", "12345", 5, 605, false⟩], [], 1⟩ "a@b.com" "12345")
    ∧ (∃ v, latestByCreatedAt (matchingUnused ⟨[⟨0, "a@b.com", "12345", 5, 605, false⟩], [], 1⟩
          "a@b.com" "12345") = some v ∧
        (verifyCode ⟨[⟨0, "a@b.com", "12345", 5, 605, false⟩], [], 1⟩
            "a@b.com" "12345" 10).1.codes
          = markUsedById [⟨0, "a@b.com", "12345", 5, 605, false⟩] v.id ∧
        ∀ s ∈ (verifyCode ⟨[⟨0, "a@b.com", "12345", 5, 605, false⟩], [], 1⟩
            "a@b.com" "12345" 10).1.codes, s.id = v.id → s.isUsed = true)
    ∧ (∀ s ∈ (verifyCode ⟨[⟨0, "a@b.com", "11111", 3, 603, true⟩], [], 1⟩
          "a@b.com" "22222" 7).1.codes,
        s.id = (⟨0, "a@b.com", "11111", 3, 603, true⟩ : VCode).id → s.isUsed = true)
    ∧ (∀ s ∈ (sendVerificationCode ⟨[⟨0, "a@b.com", "11111", 3, 603, true⟩], [], 1⟩
          "a@b.com" "33333" 8 true).1.codes,
        s.id = (⟨0, "a@b.com", "11111", 3, 603, true⟩ : VCode).id → s.isUsed = true) := by
  refine ⟨?_, ?_, ?_, ?_, ?_, ?_⟩
  · exact verifyCode_notFound_and_single_use.2.2.2.1
      ⟨[⟨0, "a@b.com", "12345", 5, 605, false⟩], [], 1⟩ "a@b.com" "12345" 10 11
      (by decide) (by decide)
  · exact (verifyCode_notFound_and_single_use.1
      ⟨[⟨0, "a@b.com", "12345", 5, 605, false⟩], [], 1⟩ "a@b.com" "99999" 10).2 (by decide)
  · exact (verifyCode_notFound_and_single_use.2.1
      ⟨[⟨0, "a@b.com", "12345", 5, 605, false⟩], [], 1⟩ "a@b.com" "12345"
      ⟨0, "a@b.com", "12345", 5, 605, false⟩ (by decide)).1
  · exact verifyCode_notFound_and_single_use.2.2.1
      ⟨[⟨0, "a@b.com", "12345", 5, 605, false⟩], [], 1⟩ "a@b.com" "12345" 10 (by decide)
  · exact verifyCode_notFound_and_single_use.2.2.2.2.1
      ⟨[⟨0, "a@b.com", "11111", 3, 603, true⟩], [], 1⟩ "a@b.com" "22222" 7 (by decide)
      ⟨0, "a@b.com", "11111", 3, 603, true⟩ (by decide) (by decide)
  · exact verifyCode_notFound_and_single_use.2.2.2.2.2
      ⟨[⟨0, "a@b.com", "11111", 3, 603, true⟩], [], 1⟩ "a@b.com" "33333" 8 true (by decide)
      ⟨0, "a@b.com", "11111", 3, 603, true⟩ (by decide) (by decide)

/-- Claim C3: an unused matching code whose expiry timestamp has passed
makes VerifyCode fail with the Expired error and leaves the store untouched
— in particular the selected row's `is_used` flag stays false. -/
theorem verifyCode_expired_leaves_state :
    ∀ (db : AuthDB) (e c : String) (now : Nat) (v : VCode),
      latestByCreatedAt (matchingUnused db e c) = some v →
      v.expiresAt ≤ now →
        verifyCode db e c now = (db, .expiredCode) ∧ v ∈ db.codes ∧ v.isUsed = false := by
  intro db e c now v hl hexp
  have hvmem := latestByCreatedAt_mem hl
  have hv2 := List.mem_filter.mp hvmem
  simp only [Bool.and_eq_true, beq_iff_eq] at hv2
  obtain ⟨hvcodes, _, hvused⟩ := hv2
  have hval : isValidCode now v = false := by
    unfold isValidCode
    simp [Nat.not_lt.mpr hexp]
  refine ⟨?_, hvcodes, hvused⟩
  rcases verifyCode_cases db e c now with ⟨hm, _⟩ | ⟨w, hl2, hval2, hq⟩ | ⟨w, _, _, hq⟩
  · rw [hm] at hl
    simp [latestByCreatedAt] at hl
  · rw [hl] at hl2
    injection hl2 with hw
    rw [← hw] at hval2
    rw [hval] at hval2
    exact absurd hval2 (by simp)
  · exact hq

/-- Witness for C3: a concrete unused row expired at time 605, verified at
time 700 — the Expired error, untouched store, row still unused. -/
theorem verifyCode_expired_leaves_state_witness :
    verifyCode ⟨[⟨0, "a@b.com", "12345", 5, 605, false⟩], [], 1⟩ "a@b.com" "12345" 700
        = (⟨[⟨0, "a@b.com", "12345", 5, 605, false⟩], [], 1⟩, .expiredCode)
      ∧ (⟨0, "a@b.com", "12345", 5, 605, false⟩ : VCode)
          ∈ (⟨[⟨0, "a@b.com", "12345", 5, 605, false⟩], [], 1⟩ : AuthDB).codes
      ∧ (⟨0, "a@b.com", "12345", 5, 605, false⟩ : VCode).isUsed = false :=
  verifyCode_expired_leaves_state ⟨[⟨0, "a@b.com", "12345", 5, 605, false⟩], [], 1⟩
    "a@b.com" "12345" 700 ⟨0, "a@b.com", "12345", 5, 605, false⟩ (by decide) (by decide)

/-- Counterexample to C4 as stated: with no used code row and an invalid
password ("123" fails the minimum-length-8 validator), registration fails
with the serializer's field error — DRF raises field-validator errors before
the view's email-verification check ever runs — so "regardless of password
validity" does not hold. -/
theorem register_emailNotVerified_counterexample :
    register (fun _ => false) ⟨[], [], 0⟩ ⟨"a@b.com", "123", "123", "", ""⟩
        = (⟨[], [], 0⟩, .fieldError)
      ∧ RegisterOutcome.fieldError ≠ RegisterOutcome.emailNotVerified
      ∧ hasUsedCode ⟨[], [], 0⟩ (pyLower "a@b.com") = false := by
  decide

/-- Claim C4 (amended): provided the input passes serializer validation
(password strength policy and matching confirmation), registration fails
with EmailNotVerified exactly when no VerificationCode row with
`is_used=true` exists for the lowercased email; conversely any such
historical used row — of any age — passes the email-verification gate,
leaving only the user-exists check or success. -/
theorem register_emailNotVerified_iff :
    ∀ (cp : String → Bool) (db : AuthDB) (inp : RegisterInput),
      passwordPolicy cp inp.password = true →
      inp.password = inp.passwordConfirm →
        ((register cp db inp).2 = .emailNotVerified
          ↔ hasUsedCode db (pyLower inp.email) = false)
        ∧ (hasUsedCode db (pyLower inp.email) = true →
            (register cp db inp).2 = .userExistsError
            ∨ (register cp db inp).2 = .registered) := by
  intro cp db inp hpol heq
  cases hu : hasUsedCode db (pyLower inp.email) with
  | false =>
    have h2 : register cp db inp = (db, .emailNotVerified) := by
      unfold register
      rw [hpol, heq, hu]
      simp
    constructor
    · rw [h2]
      simp
    · intro h
      exact absurd h (by simp)
  | true =>
    cases hx : userExists db (pyLower inp.email) with
    | true =>
      have h2 : (register cp db inp).2 = .userExistsError := by
        unfold register
        rw [hpol, heq, hu, hx]
        simp
      constructor
      · rw [h2]
        simp
      · intro _
        exact Or.inl h2
    | false =>
      have h2 : (register cp db inp).2 = .registered := by
        unfold register
        rw [hpol, heq, hu, hx]
        simp
      constructor
      · rw [h2]
        simp
      · intro _
        exact Or.inr h2

/-- Witness for amended C4: a valid, matching password with an empty store
fails with EmailNotVerified; with a used row present the gate passes. -/
theorem register_emailNotVerified_iff_witness :
    (((register (fun _ => false) ⟨[], [], 0⟩
        ⟨"a@b.com", "Password1", "Password1", "", ""⟩).2 = RegisterOutcome.emailNotVerified)
      ↔ hasUsedCode ⟨[], [], 0⟩ (pyLower "a@b.com") = false)
    ∧ (hasUsedCode ⟨[⟨0, "a@b.com", "11111", 3, 603, true⟩], [], 1⟩ (pyLower "a@b.com") = true →
        (register (fun _ => false) ⟨[⟨0, "a@b.com", "11111", 3, 603, true⟩], [], 1⟩
            ⟨"a@b.com", "Password1", "Password1", "", ""⟩).2 = RegisterOutcome.userExistsError
        ∨ (register (fun _ => false) ⟨[⟨0, "a@b.com", "11111", 3, 603, true⟩], [], 1⟩
            ⟨"a@b.com", "Password1", "Password1", "", ""⟩).2 = RegisterOutcome.registered) :=
  ⟨(register_emailNotVerified_iff (fun _ => false) ⟨[], [], 0⟩
      ⟨"a@b.com", "Password1", "Password1", "", ""⟩ (by decide) (by decide)).1,
   (register_emailNotVerified_iff (fun _ => false) ⟨[⟨0, "a@b.com", "11111", 3, 603, true⟩], [], 1⟩
      ⟨"a@b.com", "Password1", "Password1", "", ""⟩ (by decide) (by decide)).2⟩

/-- Counterexample to C5 as stated: a mismatching pair whose password also
violates the strength policy fails with the field error, not with
PasswordMismatch — DRF never reaches the object-level mismatch check when a
field validator fails. -/
theorem register_passwordMismatch_counterexample :
    register (fun _ => false) ⟨[], [], 0⟩ ⟨"a@b.com", "123", "1234", "", ""⟩
        = (⟨[], [], 0⟩, .fieldError)
      ∧ "123" ≠ "1234"
      ∧ RegisterOutcome.fieldError ≠ RegisterOutcome.passwordMismatch := by
  decide

/-- Claim C5 (amended): for a password accepted by the field-level strength
policy, a confirmation mismatch fails with PasswordMismatch regardless of
the store contents; with matching passwords the email-verification check
runs next, failing even when the user already exists; the user-exists check
runs only after it — the order is mismatch, then email-verification, then
user-exists. -/
theorem register_mismatch_before_verification :
    ∀ (cp : String → Bool) (db : AuthDB) (inp : RegisterInput),
      passwordPolicy cp inp.password = true →
        (inp.password ≠ inp.passwordConfirm →
          register cp db inp = (db, .passwordMismatch))
        ∧ (inp.password = inp.passwordConfirm →
            hasUsedCode db (pyLower inp.email) = false →
              register cp db inp = (db, .emailNotVerified))
        ∧ (inp.password = inp.passwordConfirm →
            hasUsedCode db (pyLower inp.email) = true →
            userExists db (pyLower inp.email) = true →
              register cp db inp = (db, .userExistsError)) := by
  intro cp db inp hpol
  refine ⟨?_, ?_, ?_⟩
  · intro hne
    unfold register
    rw [hpol, bne_iff_ne.mpr hne]
    simp
  · intro heq hu
    unfold register
    rw [hpol, heq, hu]
    simp
  · intro heq hu hx
    unfold register
    rw [hpol, heq, hu, hx]
    simp

/-- Witness for amended C5: mismatch with a policy-passing password fails
with PasswordMismatch; matching passwords with an existing user but no used
row fail with EmailNotVerified (email gate precedes the user-exists check);
with a used row and an existing user the result is the user-exists error. -/
theorem register_mismatch_before_verification_witness :
    register (fun _ => false) ⟨[], [], 0⟩ ⟨"a@b.com", "Password1", "Password2", "", ""⟩
        = (⟨[], [], 0⟩, .passwordMismatch)
    ∧ register (fun _ => false) ⟨[], [⟨"a@b.com", "Secret123", "", "", true, true⟩], 0⟩
          ⟨"a@b.com", "Password1", "Password1", "", ""⟩
        = (⟨[], [⟨"a@b.com", "Secret123", "", "", true, true⟩], 0⟩, .emailNotVerified)
    ∧ register (fun _ => false)
          ⟨[⟨0, "a@b.com", "11111", 3, 603, true⟩], [⟨"a@b.com", "Secret123", "", "", true, true⟩], 1⟩
          ⟨"a@b.com", "Password1", "Password1", "", ""⟩
        = (⟨[⟨0, "a@b.com", "11111", 3, 603, true⟩], [⟨"a@b.com", "Secret123", "", "", true, true⟩], 1⟩,
           .userExistsError) :=
  ⟨(register_mismatch_before_verification (fun _ => false) ⟨[], [], 0⟩
      ⟨"a@b.com", "Password1", "Password2", "", ""⟩ (by decide)).1 (by decide),
   (register_mismatch_before_verification (fun _ => false)
      ⟨[], [⟨"a@b.com", "Secret123", "", "", true, true⟩], 0⟩
      ⟨"a@b.com", "Password1", "Password1", "", ""⟩ (by decide)).2.1 (by decide) (by decide),
   (register_mismatch_before_verification (fun _ => false)
      ⟨[⟨0, "a@b.com", "11111", 3, 603, true⟩], [⟨"a@b.com", "Secret123", "", "", true, true⟩], 1⟩
      ⟨"a@b.com", "Password1", "Password1", "", ""⟩ (by decide)).2.2 (by decide) (by decide)
      (by decide)⟩

/-- Claim C6 evidence: when the mail dispatch raises during send-code, the
view raises a DRF `ValidationError`, which `custom_exception_handler` maps
to machine code `validation_error` with HTTP 400 — not `server_error` as
the claim and the view's own OpenAPI example state (the handler produces
`server_error` only in its unhandled-exception fallback, at status 500). -/
theorem sendCode_mail_failure_envelope :
    (sendVerificationCode ⟨[], [], 0⟩ "new@example.com" "12345" 0 false).2
        = SendOutcome.mailFailed
      ∧ sendCodeError SendOutcome.mailFailed
          = some ⟨"validation_error", "Failed to send email. Please try again.", 400⟩
      ∧ exceptionCode "ValidationError" = "validation_error"
      ∧ "validation_error" ≠ "server_error" := by
  decide

/-- Claim C7: when the mail dispatch fails, the state changes already made
are not rolled back — the operation reports the mail failure yet its store
equals the store of a successful send: the fresh row (still unused) is
present and every prior row for that email is marked used. -/
theorem sendCode_mail_failure_no_rollback :
    ∀ (db : AuthDB) (e g : String) (now : Nat),
      userExists db (pyLower e) = false →
        (sendVerificationCode db e g now false).2 = SendOutcome.mailFailed
        ∧ (sendVerificationCode db e g now false).1 = (sendVerificationCode db e g now true).1
        ∧ (sendVerificationCode db e g now false).1.codes
            = markPriorUnused db.codes (pyLower e) ++ [newCodeRow db (pyLower e) g now]
        ∧ newCodeRow db (pyLower e) g now ∈ (sendVerificationCode db e g now false).1.codes
        ∧ (newCodeRow db (pyLower e) g now).isUsed = false
        ∧ ∀ r ∈ markPriorUnused db.codes (pyLower e), r.email = pyLower e → r.isUsed = true := by
  intro db e g now h
  have hdb := sendVerificationCode_db db e g now false h
  have hdb2 := sendVerificationCode_db db e g now true h
  refine ⟨?_, ?_, ?_, ?_, rfl, ?_⟩
  · unfold sendVerificationCode
    rw [if_neg (by simp [h])]
    rfl
  · rw [hdb, hdb2]
  · rw [hdb]
    rfl
  · rw [hdb, afterCodeCreation_codes]
    exact List.mem_append.mpr (Or.inr (List.mem_singleton.mpr rfl))
  · exact fun r hr he => markPriorUnused_all_used r hr he

/-- Witness for C7 at a concrete store with one prior unused code. -/
theorem sendCode_mail_failure_no_rollback_witness :
    ((sendVerificationCode ⟨[⟨0, "a@b.com", "11111", 3, 603, false⟩], [], 1⟩
        "a@b.com" "22222" 9 false).2 = SendOutcome.mailFailed)
    ∧ (sendVerificationCode ⟨[⟨0, "a@b.com", "11111", 3, 603, false⟩], [], 1⟩
          "a@b.com" "22222" 9 false).1
        = (sendVerificationCode ⟨[⟨0, "a@b.com", "11111", 3, 603, false⟩], [], 1⟩
          "a@b.com" "22222" 9 true).1 := by
  have h := sendCode_mail_failure_no_rollback ⟨[⟨0, "a@b.com", "11111", 3, 603, false⟩], [], 1⟩
    "a@b.com" "22222" 9 (by decide)
  exact ⟨h.1, h.2.1⟩

/-- Claim C8 evidence: the login checks run in the claimed order —
authentication failure (unknown user and wrong password yield the same
InvalidCredentials error, even for a disabled account), then
account-disabled (also for an unverified account), then
email-not-verified — but the unverified-user failure is raised as a DRF
`ValidationError`, so the HTTP envelope carries machine code
`validation_error` with status 400, not `email_not_verified` as the claim
and the view's own OpenAPI example state. -/
theorem login_check_order_and_envelope :
    login loginDemoDB "nosuch@example.com" "Secret123" = .invalidCredentials
    ∧ login loginDemoDB "u@example.com" "wrong" = .invalidCredentials
    ∧ login loginDemoDB "d@example.com" "wrong" = .invalidCredentials
    ∧ login loginDemoDB "d@example.com" "Secret123" = .accountDisabled
    ∧ login loginDemoDB "b@example.com" "Secret123" = .accountDisabled
    ∧ login loginDemoDB "v@example.com" "Secret123" = .emailNotVerified
    ∧ loginError .emailNotVerified
        = some ⟨"validation_error", "Email is not verified.", 400⟩
    ∧ "validation_error" ≠ "email_not_verified" := by
  decide

/-- Claim C9: once a refresh token has been blacklisted by logout or rotated
away by a refresh exchange, no sequence of further token operations can make
it yield a new pair again — every later refresh of it fails with
InvalidToken — and logout itself fails with InvalidToken on a malformed or
already-blacklisted token. -/
theorem revoked_token_never_refreshes :
    (∀ (st : TokenState) (t : RToken) (ops : List TokenOp),
      (logout st t).2 = .loggedOut →
        (refreshPair (runToken (logout st t).1 ops) t).2 = .invalidToken)
    ∧ (∀ (st : TokenState) (t u : RToken) (ops : List TokenOp),
        (refreshPair st t).2 = .newPair u →
          (refreshPair (runToken (refreshPair st t).1 ops) t).2 = .invalidToken)
    ∧ (∀ (st : TokenState) (t : RToken),
        t.wellFormed = false ∨ t.jti ∈ st.blacklist →
          (logout st t).2 = .invalidToken) := by
  refine ⟨?_, ?_, ?_⟩
  · intro st t ops h
    obtain ⟨_, hst⟩ := logout_loggedOut_spec st t h
    have hmem : t.jti ∈ (logout st t).1.blacklist := by
      rw [hst]
      exact List.mem_cons_self _ _
    rw [refreshPair_invalid_of_blacklisted _ t (blacklist_mono_run ops (logout st t).1 t.jti hmem)]
  · intro st t u ops h
    obtain ⟨_, hst⟩ := refreshPair_newPair_spec st t u h
    have hmem : t.jti ∈ (refreshPair st t).1.blacklist := by
      rw [hst]
      exact List.mem_cons_self _ _
    rw [refreshPair_invalid_of_blacklisted _ t
      (blacklist_mono_run ops (refreshPair st t).1 t.jti hmem)]
  · intro st t h
    unfold logout
    rw [if_neg (show ¬ tokenAccepted st t = true by
      unfold tokenAccepted
      rcases h with h | h
      · simp [h]
      · simp [h])]

/-- Witness for C9: a concrete token revoked (or rotated away) and an
unrelated refresh later still cannot be exchanged; revoking an
already-blacklisted token fails. -/
theorem revoked_token_never_refreshes_witness :
    ((refreshPair (runToken (logout ⟨[], 0⟩ ⟨5, 1, true⟩).1 [TokenOp.refresh ⟨6, 2, true⟩])
        ⟨5, 1, true⟩).2 = RefreshOutcome.invalidToken)
    ∧ ((refreshPair (runToken (refreshPair ⟨[], 0⟩ ⟨5, 1, true⟩).1 []) ⟨5, 1, true⟩).2
        = RefreshOutcome.invalidToken)
    ∧ (logout ⟨[7], 1⟩ ⟨7, 1, true⟩).2 = LogoutOutcome.invalidToken :=
  ⟨revoked_token_never_refreshes.1 ⟨[], 0⟩ ⟨5, 1, true⟩ [TokenOp.refresh ⟨6, 2, true⟩] (by decide),
   revoked_token_never_refreshes.2.1 ⟨[], 0⟩ ⟨5, 1, true⟩ ⟨0, 1, true⟩ [] (by decide),
   revoked_token_never_refreshes.2.2 ⟨[7], 1⟩ ⟨7, 1, true⟩ (Or.inr (by decide))⟩

/-- Claim C10: the verify-code serializer rejects any code whose length is
not exactly 5 before any VerificationCode lookup runs (the store is
returned untouched), while a 5-character code containing a non-digit
character passes the boundary and — since stored generated codes are digit
strings — is answered by the normal "Invalid verification code."
not-found path. -/
theorem verify_code_length_gate :
    (∀ (db : AuthDB) (e c : String) (now : Nat), c.length ≠ 5 →
      verifyCodeEndpoint db e c now = (db, .fieldError))
    ∧ (∀ (db : AuthDB) (e c : String) (now : Nat),
        c.length = 5 →
        c.data.all Char.isDigit = false →
        (∀ r ∈ db.codes, r.code.data.all Char.isDigit = true) →
          verifyCodeEndpoint db e c now = (db, .outcome .invalidCode))
    ∧ verifyCodeError .invalidCode
        = some ⟨"validation_error", "Invalid verification code.", 400⟩ := by
  refine ⟨?_, ?_, by decide⟩
  · intro db e c now h
    unfold verifyCodeEndpoint
    rw [if_neg (by simp [h])]
  · intro db e c now hlen hnd hall
    unfold verifyCodeEndpoint
    rw [if_pos (by simp [hlen])]
    have hm : matchingUnused db (pyLower e) c = [] := by
      unfold matchingUnused
      rw [List.filter_eq_nil_iff]
      intro r hr hp
      simp only [Bool.and_eq_true, beq_iff_eq] at hp
      obtain ⟨⟨_, hcode⟩, _⟩ := hp
      have h2 := hall r hr
      rw [hcode, hnd] at h2
      exact absurd h2 (by simp)
    rw [verifyCode_of_no_match db (pyLower e) c now hm]

/-- Witness for C10: a 4-character code is rejected at the boundary; a
5-character alphabetic code reaches the lookup and gets the not-found
answer. -/
theorem verify_code_length_gate_witness :
    verifyCodeEndpoint ⟨[⟨0, "a@b.com", "12345", 5, 605, false⟩], [], 1⟩ "a@b.com" "1234" 10
        = (⟨[⟨0, "a@b.com", "12345", 5, 605, false⟩], [], 1⟩, .fieldError)
    ∧ verifyCodeEndpoint ⟨[⟨0, "a@b.com", "12345", 5, 605, false⟩], [], 1⟩ "a@b.com" "abcde" 10
        = (⟨[⟨0, "a@b.com", "12345", 5, 605, false⟩], [], 1⟩, .outcome .invalidCode) :=
  ⟨verify_code_length_gate.1 ⟨[⟨0, "a@b.com", "12345", 5, 605, false⟩], [], 1⟩
      "a@b.com" "1234" 10 (by decide),
   verify_code_length_gate.2.1 ⟨[⟨0, "a@b.com", "12345", 5, 605, false⟩], [], 1⟩
      "a@b.com" "abcde" 10 (by decide) (by decide) (by decide)⟩

end AiInterview
